import Mathlib

/-!
Shallow embedding of the detection-and-cleaning engine of the dataclean-ai
repository (`ml_pipeline/cleaning/cleaner.py` and
`ml_pipeline/cleaning/ml_cleaner.py`), together with proofs about the
behaviour of its operations.

Modelling conventions:
* A pandas DataFrame is a list of named, dtype-tagged columns plus a list of
  rows; a cell is a rational number, a string, or the missing sentinel
  (`NaN`/`None`).  Machine floats are modelled as exact rationals.
* pandas semantics that matter for the proofs are reproduced explicitly:
  `duplicated` treats two missing cells as equal, elementwise `!=` treats a
  missing cell as different from everything (including another missing cell),
  comparisons of a missing cell with a bound are false, `quantile` uses
  linear interpolation over the sorted non-missing values, `std` uses
  `ddof = 1`, and `.str` methods map non-string elements to missing.
* Python `try/except` blocks are embedded by making every raising code path
  return the corresponding error result explicitly; the embedded operations
  are total functions.
* Timestamps in change-log entries are not modelled; a change-log entry keeps
  the remaining fields of the dict the source logs.  Quotes around column
  names in error messages are elided, and the numeric part of recommendation
  reason strings is rendered as `num/den` instead of Python `%.1f` format;
  no proof below depends on message text beyond equality of the strings the
  embedding itself produces.
-/

set_option maxRecDepth 400000

/-- One cell of a table: a numeric value, a text value, or the missing
sentinel (pandas `NaN` / `None`). -/
inductive Cell where
  | num (q : ℚ)
  | text (s : String)
  | missing
deriving DecidableEq, Repr

/-- The dtype of a column as far as the cleaner distinguishes them:
`pd.api.types.is_numeric_dtype` is true exactly for `numeric` columns. -/
inductive ColType where
  | numeric
  | textual
deriving DecidableEq, Repr

/-- A row of the table, one cell per column. -/
abbrev Row := List Cell

/-- A pandas DataFrame: named, dtype-tagged columns and a list of rows.
Rows are intended to have one cell per column. -/
structure DataFrame where
  cols : List (String × ColType)
  rows : List Row
deriving DecidableEq, Repr

/-- Index of a named column, `None` when the column is absent
(`column not in df.columns`). -/
def colIdx? (df : DataFrame) (column : String) : Option Nat :=
  df.cols.findIdx? (fun c => c.1 == column)

/-- The dtype of column `i`. -/
def dtypeAt (df : DataFrame) (i : Nat) : ColType :=
  (df.cols.getD i ("", ColType.textual)).2

/-- Cell of a row in column `i`. -/
def getCell (r : Row) (i : Nat) : Cell :=
  r.getD i Cell.missing

/-- The cells of column `i`, in row order (`df[column]`). -/
def colCells (df : DataFrame) (i : Nat) : List Cell :=
  df.rows.map (fun r => getCell r i)

/-- Whether a cell is the missing sentinel (`isna`). -/
def Cell.isMissing : Cell → Bool
  | .missing => true
  | _ => false

/-- Numeric view of a cell. -/
def Cell.toNum : Cell → Option ℚ
  | .num q => some q
  | _ => none

/-- The non-missing numeric values of a column (pandas numeric reductions
skip `NaN`). -/
def numsOf (cells : List Cell) : List ℚ :=
  cells.filterMap Cell.toNum

/-- Number of missing cells (`df[column].isna().sum()`). -/
def countMissing (cells : List Cell) : Nat :=
  cells.countP (fun c => c.isMissing)

/-- Rewrite every cell of column `i` with `f`, leaving other columns
untouched (column assignment `df[column] = ...`). -/
def mapColCells (df : DataFrame) (i : Nat) (f : Cell → Cell) : DataFrame :=
  { df with rows := df.rows.map (fun r => r.set i (f (getCell r i))) }

/-- Keep the rows whose cell in column `i` satisfies `p`
(boolean-mask row filtering `df[mask]`). -/
def filterRowsOn (df : DataFrame) (i : Nat) (p : Cell → Bool) : DataFrame :=
  { df with rows := df.rows.filter (fun r => p (getCell r i)) }

/-! Python string methods, on the ASCII alphabet the data uses. -/

/-- Python `str.strip()`: drop leading and trailing whitespace. -/
def pyStrip (s : String) : String :=
  String.mk (((s.data.dropWhile Char.isWhitespace).reverse.dropWhile
    Char.isWhitespace).reverse)

/-- Python `str.upper()`. -/
def pyUpper (s : String) : String :=
  String.mk (s.data.map Char.toUpper)

/-- Python `str.lower()`. -/
def pyLower (s : String) : String :=
  String.mk (s.data.map Char.toLower)

/-- Worker for `str.title()`: the boolean records whether the previous
character was alphabetic (inside a word). -/
def titleGo : Bool → List Char → List Char
  | _, [] => []
  | prevAlpha, c :: cs =>
    if c.isAlpha then
      (if prevAlpha then c.toLower else c.toUpper) :: titleGo true cs
    else
      c :: titleGo false cs

/-- Python `str.title()`: first character of every alphabetic run
uppercased, the rest lowercased. -/
def pyTitle (s : String) : String :=
  String.mk (titleGo false s.data)

/-- A pandas `.str` method applied to one element of an object column:
non-string elements (including missing) become missing (`NaN`). -/
def applyStr (f : String → String) : Cell → Cell
  | .text s => .text (f s)
  | _ => .missing

/-- Elementwise pandas `!=` on cells: a missing cell is unequal to
everything, including another missing cell (`NaN != NaN` is true). -/
def pandasNe (a b : Cell) : Bool :=
  if a.isMissing || b.isMissing then true else a != b

/-! Numeric statistics used by the cleaner. -/

/-- Insert into a sorted list of rationals. -/
def insertRat (x : ℚ) : List ℚ → List ℚ
  | [] => [x]
  | y :: ys => if x ≤ y then x :: y :: ys else y :: insertRat x ys

/-- Sort a list of rationals ascending (the sorted order is unique, so this
models the sort inside pandas `quantile`/`median`). -/
def sortRat : List ℚ → List ℚ
  | [] => []
  | x :: xs => insertRat x (sortRat xs)

/-- Floor of a rational, as an integer. -/
def ratFloor (q : ℚ) : ℤ :=
  Int.fdiv q.num q.den

/-- pandas `Series.quantile(q)` with the default linear interpolation over
the sorted non-missing values: virtual index `h = q*(n-1)`, result
`x_i + (h-i)*(x_{i+1} - x_i)` with `i = floor h`.  `None` models the `NaN`
returned for an empty (all-missing) column. -/
def quantile (xs : List ℚ) (q : ℚ) : Option ℚ :=
  match xs with
  | [] => none
  | _ :: _ =>
    let s := sortRat xs
    let n := s.length
    let h : ℚ := q * ((n : ℚ) - 1)
    let i : Nat := (ratFloor h).toNat
    let xi := s.getD i 0
    let xj := s.getD (i + 1) xi
    some (xi + (h - (i : ℚ)) * (xj - xi))

/-- pandas `Series.mean()` over the non-missing values; `None` models the
`NaN` mean of an empty column. -/
def meanQ (xs : List ℚ) : Option ℚ :=
  match xs with
  | [] => none
  | _ :: _ => some (xs.sum / (xs.length : ℚ))

/-- pandas `Series.median()` is the 0.5 quantile with linear
interpolation. -/
def medianQ (xs : List ℚ) : Option ℚ :=
  quantile xs (1/2)

/-- Strict order on cells used to pick the smallest mode (pandas `mode()`
returns the most frequent values sorted ascending, and the source takes
`mode()[0]`). -/
def cellLt : Cell → Cell → Bool
  | .num a, .num b => decide (a < b)
  | .text a, .text b => decide (a < b)
  | .num _, .text _ => true
  | _, _ => false

/-- `df[column].mode()[0]` if the mode list is nonempty: the smallest among
the non-missing values of maximal multiplicity, `None` when every value is
missing. -/
def modeCell (cells : List Cell) : Option Cell :=
  let vs := cells.filter (fun c => !c.isMissing)
  vs.foldl
    (fun best v =>
      match best with
      | none => some v
      | some b =>
        if vs.count v > vs.count b then some v
        else if vs.count v = vs.count b && cellLt v b then some v
        else some b)
    none

/-! Duplicate-row detection (`DataFrame.duplicated`). -/

/-- `duplicated(keep='first')`: a row is marked when an equal row occurred
earlier; `seen` accumulates the rows already passed.  Two missing cells
compare equal here, as in pandas duplicate detection. -/
def dupFirstMask : List Row → List Row → List Bool
  | _, [] => []
  | seen, r :: rs => decide (r ∈ seen) :: dupFirstMask (r :: seen) rs

/-- `duplicated(keep='last')`: a row is marked when an equal row occurs
later. -/
def dupLastMask : List Row → List Bool
  | [] => []
  | r :: rs => decide (r ∈ rs) :: dupLastMask rs

/-- `df[~mask]`: keep the rows whose mask entry is `false`. -/
def filterOutMask (rows : List Row) (mask : List Bool) : List Row :=
  (rows.zip mask).filterMap (fun p => if p.2 then none else some p.1)

/-! The cleaner state and its change log. -/

/-- One entry of the cleaner's change log, or the dict returned by an
operation: the fields of the dict the source builds, minus the timestamp.
The zero-effect early returns of `remove_duplicates` and
`fill_missing_values` reuse the corresponding constructor for the result
dict they return without logging. -/
inductive ChangeEntry where
  | dup (rows_removed original_count cleaned_count : Nat)
  | fill (column : String) (values_filled : Nat) (strategy_used : String)
      (fill_value : Option Cell)
  | outlier (column : String) (method : String)
      (outliers_removed original_count cleaned_count : Nat)
  | fmt (column : String) (target_format : String) (values_changed : Nat)
deriving DecidableEq, Repr

/-- Result of one cleaning operation: the returned change dict, or the
error dict `\x7b'error': msg, '<count field>': 0\x7d` produced by the
operation's `except` block (the count the source writes there is kept
explicitly). -/
inductive OpResult where
  | ok (entry : ChangeEntry)
  | err (msg : String) (count : Nat)
deriving DecidableEq, Repr

/-- Whether a result is error-shaped. -/
def OpResult.isErr : OpResult → Bool
  | .err _ _ => true
  | _ => false

/-- The `DataCleaner` state: pristine copy, working copy, change log. -/
structure DataCleaner where
  original_df : DataFrame
  cleaned_df : DataFrame
  changes_log : List ChangeEntry
deriving DecidableEq, Repr

/-- `DataCleaner.__init__`: both copies start as the input table, the log
empty. -/
def DataCleaner.init (df : DataFrame) : DataCleaner :=
  { original_df := df, cleaned_df := df, changes_log := [] }

/-- `DataCleaner.remove_duplicates`: drop exact duplicate rows.  An invalid
`keep` makes pandas `duplicated` raise, which the operation's `except`
block turns into an error dict with `rows_removed = 0`.  When no duplicate
is found the result dict is returned without touching the log. -/
def DataCleaner.remove_duplicates (st : DataCleaner)
    (keep : String := "first") : DataCleaner × OpResult :=
  if keep = "first" ∨ keep = "last" then
    let original_count := st.cleaned_df.rows.length
    let mask :=
      if keep = "first" then dupFirstMask [] st.cleaned_df.rows
      else dupLastMask st.cleaned_df.rows
    let duplicate_count := mask.count true
    if duplicate_count = 0 then
      (st, .ok (.dup 0 original_count original_count))
    else
      let newRows := filterOutMask st.cleaned_df.rows mask
      let change := ChangeEntry.dup duplicate_count original_count
        newRows.length
      ({ st with
          cleaned_df := { st.cleaned_df with rows := newRows },
          changes_log := st.changes_log ++ [change] }, .ok change)
  else
    (st, .err "keep must be either first or last" 0)

/-- `df[column].fillna(v, inplace=True)`: replace the missing cells of
column `i`; a `None` fill value models filling with `NaN`, a no-op. -/
def fillCol (df : DataFrame) (i : Nat) : Option Cell → DataFrame
  | none => df
  | some v => mapColCells df i (fun c => if c.isMissing then v else c)

/-- `DataCleaner.fill_missing_values`: fill the missing cells of one
column.  Mirrors the source: absent column raises; zero missing returns a
result dict without logging; `auto` resolves to `median`/`mode` by dtype;
`mean`/`median` on a non-numeric column raise inside pandas before any
mutation; `mode` skips the fill when the mode list is empty but still logs;
`drop` removes the rows with a missing cell; an unknown strategy raises.
All raises are caught and returned as error dicts with
`values_filled = 0`. -/
def DataCleaner.fill_missing_values (st : DataCleaner) (column : String)
    (strategy : String := "auto") : DataCleaner × OpResult :=
  match colIdx? st.cleaned_df column with
  | none => (st, .err ("Column " ++ column ++ " not found") 0)
  | some i =>
    let df := st.cleaned_df
    let cells := colCells df i
    let missing_count := countMissing cells
    if missing_count = 0 then
      (st, .ok (.fill column 0 strategy none))
    else
      let strat :=
        if strategy = "auto" then
          if dtypeAt df i = ColType.numeric then "median" else "mode"
        else strategy
      if strat = "mean" then
        if dtypeAt df i = ColType.numeric then
          let fv := (meanQ (numsOf cells)).map Cell.num
          let change := ChangeEntry.fill column missing_count strat fv
          ({ st with
              cleaned_df := fillCol df i fv,
              changes_log := st.changes_log ++ [change] }, .ok change)
        else
          (st, .err ("could not compute mean of column " ++ column) 0)
      else if strat = "median" then
        if dtypeAt df i = ColType.numeric then
          let fv := (medianQ (numsOf cells)).map Cell.num
          let change := ChangeEntry.fill column missing_count strat fv
          ({ st with
              cleaned_df := fillCol df i fv,
              changes_log := st.changes_log ++ [change] }, .ok change)
        else
          (st, .err ("could not compute median of column " ++ column) 0)
      else if strat = "mode" then
        let fv := modeCell cells
        let change := ChangeEntry.fill column missing_count strat fv
        ({ st with
            cleaned_df := fillCol df i fv,
            changes_log := st.changes_log ++ [change] }, .ok change)
      else if strat = "drop" then
        let newDf := filterRowsOn df i (fun c => !c.isMissing)
        let change := ChangeEntry.fill column missing_count strat
          (some (.text "dropped_rows"))
        ({ st with
            cleaned_df := newDf,
            changes_log := st.changes_log ++ [change] }, .ok change)
      else
        (st, .err ("Unknown strategy: " ++ strat) 0)

/-- The IQR keep-mask for one cell: `(v >= lower) & (v <= upper)`; false on
a missing cell, and everywhere when the quantiles are `NaN` (empty
column). -/
def iqrKeep (q1? q3? : Option ℚ) (threshold : ℚ) : Cell → Bool :=
  match q1?, q3? with
  | some q1, some q3 =>
    fun c =>
      match c with
      | .num v =>
        decide (q1 - threshold * (q3 - q1) ≤ v) &&
          decide (v ≤ q3 + threshold * (q3 - q1))
      | _ => false
  | _, _ => fun _ => false

/-- The z-score keep-mask for one cell: `|v - mean| / std < threshold` with
`std` the `ddof = 1` standard deviation.  Encoded without square roots:
for `std > 0` and `threshold > 0` the comparison is equivalent to
`(v - mean)^2 < threshold^2 * var`; when `n < 2` or `var = 0` or
`threshold <= 0` the float comparison against a `NaN`/infinite z-score (or
a nonpositive threshold) is false, so nothing is kept. -/
def zscoreKeep (xs : List ℚ) (threshold : ℚ) : Cell → Bool :=
  if 2 ≤ xs.length then
    let m := xs.sum / (xs.length : ℚ)
    let v := (xs.map (fun x => (x - m) ^ 2)).sum / ((xs.length : ℚ) - 1)
    fun c =>
      match c with
      | .num x =>
        decide (0 < v) && decide (0 < threshold) &&
          decide ((x - m) ^ 2 < threshold ^ 2 * v)
      | _ => false
  else
    fun _ => false

/-- `DataCleaner.remove_outliers`: drop the rows of one numeric column
falling outside the IQR bounds, or with z-score at least the threshold.
Absent column, non-numeric dtype and unknown method raise and are caught
into error dicts with `outliers_removed = 0`. -/
def DataCleaner.remove_outliers (st : DataCleaner) (column : String)
    (method : String := "iqr") (threshold : ℚ := 3/2) :
    DataCleaner × OpResult :=
  match colIdx? st.cleaned_df column with
  | none => (st, .err ("Column " ++ column ++ " not found") 0)
  | some i =>
    let df := st.cleaned_df
    if dtypeAt df i = ColType.numeric then
      let original_count := df.rows.length
      let nums := numsOf (colCells df i)
      if method = "iqr" then
        let newDf := filterRowsOn df i
          (iqrKeep (quantile nums (1/4)) (quantile nums (3/4)) threshold)
        let change := ChangeEntry.outlier column method
          (original_count - newDf.rows.length) original_count
          newDf.rows.length
        ({ st with
            cleaned_df := newDf,
            changes_log := st.changes_log ++ [change] }, .ok change)
      else if method = "zscore" then
        let newDf := filterRowsOn df i (zscoreKeep nums threshold)
        let change := ChangeEntry.outlier column method
          (original_count - newDf.rows.length) original_count
          newDf.rows.length
        ({ st with
            cleaned_df := newDf,
            changes_log := st.changes_log ++ [change] }, .ok change)
      else
        (st, .err ("Unknown method: " ++ method) 0)
    else
      (st, .err ("Column " ++ column ++ " is not numeric") 0)

/-- `DataCleaner.standardize_format`: case-normalize and strip a text
column.  On a numeric-dtype column the first `.str` access raises (also on
the final strip when the target format is unrecognized), caught into an
error dict with `values_changed = 0`.  An unrecognized target format on a
text column silently skips the casing step but still strips.  The changed
count compares with pandas `!=`, so a missing value always counts as
changed. -/
def DataCleaner.standardize_format (st : DataCleaner) (column : String)
    (target_format : String := "auto") : DataCleaner × OpResult :=
  match colIdx? st.cleaned_df column with
  | none => (st, .err ("Column " ++ column ++ " not found") 0)
  | some i =>
    let df := st.cleaned_df
    if dtypeAt df i = ColType.numeric then
      (st, .err "Can only use .str accessor with string values" 0)
    else
      let original_values := colCells df i
      let df1 :=
        if target_format = "upper" then mapColCells df i (applyStr pyUpper)
        else if target_format = "lower" then
          mapColCells df i (applyStr pyLower)
        else if target_format = "title" then
          mapColCells df i (applyStr pyTitle)
        else if target_format = "auto" then
          mapColCells df i (applyStr pyTitle)
        else df
      let df2 := mapColCells df1 i (applyStr pyStrip)
      let changed_count :=
        (original_values.zip (colCells df2 i)).countP
          (fun p => pandasNe p.1 p.2)
      let change := ChangeEntry.fmt column target_format changed_count
      ({ st with
          cleaned_df := df2,
          changes_log := st.changes_log ++ [change] }, .ok change)

/-- One requested cleaning operation, as dispatched by the orchestrator's
`clean_dataframe` loop. -/
inductive CleanOp where
  | removeDuplicates (keep : String)
  | fillMissing (column strategy : String)
  | removeOutliers (column method : String) (threshold : ℚ)
  | standardizeFormat (column target_format : String)
deriving DecidableEq

/-- Dispatch one  operation against the cleaner state. -/
def applyOp (st : DataCleaner) : CleanOp → DataCleaner × OpResult
  | .removeDuplicates keep => st.remove_duplicates keep
  | .fillMissing column strategy => st.fill_missing_values column strategy
  | .removeOutliers column method threshold =>
      st.remove_outliers column method threshold
  | .standardizeFormat column target_format =>
      st.standardize_format column target_format

/-- Apply a batch of operations in order, keeping the state after each. -/
def applyOps (st : DataCleaner) (ops : List CleanOp) : DataCleaner :=
  ops.foldl (fun s op => (applyOp s op).1) st

/-- `DataCleaner.get_summary()`: shapes, row delta, and the log. -/
structure CleaningSummary where
  original_shape : Nat × Nat
  cleaned_shape : Nat × Nat
  rows_removed : ℤ
  operations_performed : Nat
  changes_log : List ChangeEntry
deriving DecidableEq, Repr

/-- Derive the summary from the current state.  Shapes are
`(rows, columns)`; `rows_removed` is `len(original) - len(cleaned)` as the
integer the source computes. -/
def DataCleaner.get_summary (st : DataCleaner) : CleaningSummary :=
  { original_shape :=
      (st.original_df.rows.length, st.original_df.cols.length),
    cleaned_shape :=
      (st.cleaned_df.rows.length, st.cleaned_df.cols.length),
    rows_removed :=
      (st.original_df.rows.length : ℤ) - (st.cleaned_df.rows.length : ℤ),
    operations_performed := st.changes_log.length,
    changes_log := st.changes_log }

/-! The ML analyzer (`MLDataCleaner.analyze_dataframe`).  The feature
extractor and the trained models live outside the analyzed loop (the
extractor's module is not part of this development); they enter as opaque
fallible functions in an environment record, so every theorem below
quantifies over their behaviour. -/

/-- A feature vector: feature name to numeric value, as produced by the
extractor. -/
abbrev Features := List (String × ℚ)

/-- `features.get(name, default)`. -/
def featGet (features : Features) (name : String) (d : ℚ) : ℚ :=
  match features.lookup name with
  | some v => v
  | none => d

/-- The environment the analyzer runs in: the metadata feature-column
ordering, the loaded models (problem type to probability model, in dict
iteration order), and the feature extractor.  `Except.error` models a
raised exception. -/
structure MLModels where
  feature_columns : List String
  models : List (String × (List ℚ → Except String (List ℚ)))
  extract : String → Except String Features

/-- `feature_row = feature_row[self.metadata['feature_columns']]`: select
the features in metadata order; a missing name raises (`KeyError`), caught
by the per-column handler. -/
def selectFeatures (features : Features) : List String → Except String (List ℚ)
  | [] => .ok []
  | c :: cs =>
    match features.lookup c with
    | some v => (selectFeatures features cs).map (fun vs => v :: vs)
    | none => .error ("missing feature " ++ c)

/-- Probability and thresholded flag for one problem type on one column. -/
structure ProblemScore where
  probability : ℚ
  has_problem : Bool
deriving DecidableEq, Repr

/-- The per-column stats dict stored under `analysis['columns'][col]` for a
successfully analyzed column. -/
structure ColumnStats where
  problems : List (String × ProblemScore)
  missing_percentage : ℚ
  duplicate_percentage : ℚ
  outlier_percentage : ℚ
  format_consistency_score : ℚ
deriving DecidableEq, Repr

/-- A column's entry in the report: stats, or the error dict written by the
per-column exception handler. -/
inductive ColumnEntry where
  | ok (stats : ColumnStats)
  | err (msg : String)
deriving DecidableEq, Repr

/-- Whether a column entry is the error shape. -/
def ColumnEntry.isErr : ColumnEntry → Bool
  | .err _ => true
  | _ => false

/-- One entry of `analysis['problems_detected']`. -/
structure ProblemInfo where
  column : String
  problem_type : String
  probability : ℚ
deriving DecidableEq, Repr

/-- The full analysis report. -/
structure Analysis where
  total_rows : Nat
  total_columns : Nat
  columns : List (String × ColumnEntry)
  problems_detected : List ProblemInfo
deriving Repr

/-- The inner model loop for one column: per problem type, predict; on
success record the probability (second entry of a length-2 proba vector,
else 0) and append to problems_detected when above 0.5; a prediction
failure is caught per problem type and recorded as probability 0, no
problem. -/
def scoreModels (col : String) (row : List ℚ) :
    List (String × (List ℚ → Except String (List ℚ))) →
    List (String × ProblemScore) × List ProblemInfo
  | [] => ([], [])
  | (ptype, model) :: rest =>
    let tail := scoreModels col row rest
    match model row with
    | .ok proba =>
      let prob := if proba.length = 2 then proba.getD 1 0 else 0
      ((ptype, ⟨prob, decide (prob > 1/2)⟩) :: tail.1,
        (if prob > 1/2 then [⟨col, ptype, prob⟩] else []) ++ tail.2)
    | .error _ => ((ptype, ⟨0, false⟩) :: tail.1, tail.2)

/-- The extraction phase for one column: run the extractor, then select the
metadata feature columns.  Both failure modes are caught by the outer
per-column handler. -/
def extractPhase (env : MLModels) (col : String) :
    Except String (Features × List ℚ) :=
  match env.extract col with
  | .error e => .error e
  | .ok features =>
    match selectFeatures features env.feature_columns with
    | .error e => .error e
    | .ok row => .ok (features, row)

/-- Analysis of one column: the entry stored in the report and the
problems_detected entries it contributes. -/
def analyzeColumn (env : MLModels) (col : String) :
    ColumnEntry × List ProblemInfo :=
  match extractPhase env col with
  | .error e => (.err e, [])
  | .ok (features, row) =>
    let scored := scoreModels col row env.models
    (.ok
      { problems := scored.1,
        missing_percentage := featGet features "missing_percentage" 0,
        duplicate_percentage := featGet features "duplicate_percentage" 0,
        outlier_percentage := featGet features "outlier_percentage" 0,
        format_consistency_score :=
          featGet features "format_consistency_score" 100 },
      scored.2)

/-- `MLDataCleaner.analyze_dataframe`: analyze every column independently,
in column order; problems_detected accumulates in column order then model
order. -/
def analyze_dataframe (env : MLModels) (df : DataFrame) : Analysis :=
  let colResults := df.cols.map (fun c => (c.1, analyzeColumn env c.1))
  { total_rows := df.rows.length,
    total_columns := df.cols.length,
    columns := colResults.map (fun p => (p.1, p.2.1)),
    problems_detected := colResults.flatMap (fun p => p.2.2) }

/-! The recommender (`MLDataCleaner.recommend_cleaning_operations`). -/

/-- A parameter value in a recommendation's `params` dict. -/
inductive ParamVal where
  | s (v : String)
  | q (v : ℚ)
deriving DecidableEq, Repr

/-- One recommendation. -/
structure Recommendation where
  operation : String
  column : Option String
  priority : String
  reason : String
  params : List (String × ParamVal)
deriving DecidableEq, Repr

/-- Plain rendering of a rational for reason strings (stands in for the
source's `%.1f` float formatting; nothing below inspects it). -/
def ratStr (x : ℚ) : String :=
  toString x.num ++ "/" ++ toString x.den

/-- The file-level duplicate-removal recommendation. -/
def dupRecommendation : Recommendation :=
  { operation := "remove_duplicates",
    column := none,
    priority := "high",
    reason := "Multiple columns show high duplicate percentage",
    params := [("keep", .s "first")] }

/-- The loop over `problems_detected`: append the duplicate recommendation
for the first entry whose type is `has_duplicates` with probability above
0.7, then `break`. -/
def dupScanRecs : List ProblemInfo → List Recommendation
  | [] => []
  | p :: ps =>
    if p.problem_type = "has_duplicates" ∧ p.probability > 7/10 then
      [dupRecommendation]
    else dupScanRecs ps

/-- `problems.get(ptype, \x7b\x7d).get('has_problem', False)`. -/
def hasProblemFor (problems : List (String × ProblemScore))
    (ptype : String) : Bool :=
  match problems.lookup ptype with
  | some s => s.has_problem
  | none => false

/-- The per-column recommendations: skip errored columns; emit
fill-missing (medium), remove-outliers (low) and standardize-format (low)
with the source's fixed parameters when the corresponding flag is set. -/
def columnRecs : String × ColumnEntry → List Recommendation
  | (_, .err _) => []
  | (col, .ok stats) =>
    (if hasProblemFor stats.problems "has_missing" then
      [{ operation := "fill_missing_values",
         column := some col,
         priority := "medium",
         reason := "Column has " ++ ratStr stats.missing_percentage ++
           "% missing values",
         params := [("strategy", .s "auto")] }]
     else []) ++
    (if hasProblemFor stats.problems "has_outliers" then
      [{ operation := "remove_outliers",
         column := some col,
         priority := "low",
         reason := "Column has " ++ ratStr stats.outlier_percentage ++
           "% outliers",
         params := [("method", .s "iqr"), ("threshold", .q (3/2))] }]
     else []) ++
    (if hasProblemFor stats.problems "has_format_issue" then
      [{ operation := "standardize_format",
         column := some col,
         priority := "low",
         reason := "Format consistency only " ++
           ratStr stats.format_consistency_score ++ "%",
         params := [("target_format", .s "auto")] }]
     else [])

/-- The recommendation list before the final priority sort, in generation
order. -/
def recsUnsorted (analysis : Analysis) : List Recommendation :=
  dupScanRecs analysis.problems_detected ++
    analysis.columns.flatMap columnRecs

/-- `priority_order = \x7b'high': 0, 'medium': 1, 'low': 2\x7d` (every
generated priority is one of the three; the fallback value is never
reached). -/
def priorityRank (p : String) : Nat :=
  if p = "high" then 0 else if p = "medium" then 1
  else if p = "low" then 2 else 3

/-- Comparison used for the final sort. -/
def recLE (a b : Recommendation) : Bool :=
  priorityRank a.priority ≤ priorityRank b.priority

/-- `recommendations.sort(key=lambda x: priority_order[x['priority']])`:
Python's sort is stable, and a stable sort by a total preorder is a unique
function of its input, so the library's stable `mergeSort` is the model. -/
def recommend_cleaning_operations (analysis : Analysis) :
    List Recommendation :=
  (recsUnsorted analysis).mergeSort recLE

/-! Concrete tables and environments used by witnesses and
counterexamples. -/

/-- The spec's standardize-format scenario table. -/
def dfTitle : DataFrame :=
  { cols := [("name", ColType.textual)],
    rows := [[Cell.text "  bob  "], [Cell.text "ALICE"], [Cell.text "Carol"]] }

/-- The spec's IQR outlier scenario column. -/
def dfAges : DataFrame :=
  { cols := [("age", ColType.numeric)],
    rows := [[Cell.num 10], [Cell.num 12], [Cell.num 11], [Cell.num 13],
      [Cell.num 1000]] }

/-- A numeric column with a missing value. -/
def dfSalary : DataFrame :=
  { cols := [("salary", ColType.numeric)],
    rows := [[Cell.num 1], [Cell.missing], [Cell.num 2], [Cell.num 3]] }

/-- A table with one exact duplicate row pair. -/
def dfDupes : DataFrame :=
  { cols := [("a", ColType.numeric)],
    rows := [[Cell.num 1], [Cell.num 1], [Cell.num 2]] }

/-- A text column with a missing value, for the fill error cases. -/
def dfNames : DataFrame :=
  { cols := [("name", ColType.textual)],
    rows := [[Cell.text "ann"], [Cell.missing]] }

/-- An analyzer environment with one model failing to predict and another
reporting a high probability: extraction succeeds for every column. -/
def envPredictFail : MLModels :=
  { feature_columns := ["f1"],
    models := [("has_type_issue", fun _ => .error "predict failed"),
      ("has_missing", fun _ => .ok [1/10, 9/10])],
    extract := fun _ => .ok [("f1", 1), ("missing_percentage", 5)] }

/-- The stats entry the analyzer produces for a column under
`envPredictFail`. -/
def statsPredictFail : ColumnStats :=
  { problems := [("has_type_issue", ⟨0, false⟩),
      ("has_missing", ⟨9/10, true⟩)],
    missing_percentage := 5,
    duplicate_percentage := 0,
    outlier_percentage := 0,
    format_consistency_score := 100 }

/-- A one-text-column table for analyzer scenarios. -/
def dfOneCol : DataFrame :=
  { cols := [("a", ColType.textual)], rows := [] }

/-- An analyzer environment whose extractor fails on column `bad` only. -/
def envExtractFail : MLModels :=
  { feature_columns := [],
    models := [],
    extract := fun c => if c = "bad" then .error "boom" else .ok [] }

/-- A two-column table whose first column breaks the extractor of
`envExtractFail`. -/
def dfBadGood : DataFrame :=
  { cols := [("bad", ColType.textual), ("good", ColType.numeric)],
    rows := [] }

/-- An analysis report with one high-probability duplicate signal, for the
recommender witnesses. -/
def aDup : Analysis :=
  { total_rows := 3,
    total_columns := 1,
    columns := [],
    problems_detected := [⟨"a", "has_duplicates", 4/5⟩] }

/-! Theorems.  Each claim of the specification is settled by one theorem
below; helper lemmas precede the claim theorems that use them. -/

/-- C1 (counterexample): on the text column `["  bob  ", "ALICE", "Carol"]`,
`standardize_format(target_format="title")` reports `values_changed = 2`,
not `3` as claimed: `"Carol"` is unchanged by title-casing and
stripping, and the change count only counts values that differ. -/
theorem C1_counterexample :
    ((DataCleaner.init dfTitle).standardize_format "name" "title").2 =
      OpResult.ok (ChangeEntry.fmt "name" "title" 2) ∧
    ¬ ((DataCleaner.init dfTitle).standardize_format "name" "title").2 =
      OpResult.ok (ChangeEntry.fmt "name" "title" 3) := by
  with_unfolding_all decide

/-- C1 (amended): on the text column `["  bob  ", "ALICE", "Carol"]`,
`standardize_format(target_format="title")` produces
`["Bob", "Alice", "Carol"]` (each value trimmed and title-cased) and the
returned change entry reports `values_changed = 2`, counting exactly the
values that differ between the column before and after the operation
(`"Carol"` is already in target form). -/
theorem C1_title_standardization :
    colCells
        ((DataCleaner.init dfTitle).standardize_format "name"
          "title").1.cleaned_df 0 =
      [Cell.text "Bob", Cell.text "Alice", Cell.text "Carol"] ∧
    ((DataCleaner.init dfTitle).standardize_format "name" "title").2 =
      OpResult.ok (ChangeEntry.fmt "name" "title" 2) := by
  with_unfolding_all decide

/-- An error result from `remove_duplicates` leaves the state unchanged and
carries a zero count. -/
theorem remove_duplicates_err (st : DataCleaner) (keep msg : String) (c : Nat)
    (h : (st.remove_duplicates keep).2 = .err msg c) :
    (st.remove_duplicates keep).1 = st ∧ c = 0 := by
  unfold DataCleaner.remove_duplicates at h ⊢
  dsimp only at h ⊢
  repeat' split at h
  all_goals simp_all

/-- An error result from `fill_missing_values` leaves the state unchanged
and carries a zero count. -/
theorem fill_missing_values_err (st : DataCleaner)
    (column strategy msg : String) (c : Nat)
    (h : (st.fill_missing_values column strategy).2 = .err msg c) :
    (st.fill_missing_values column strategy).1 = st ∧ c = 0 := by
  unfold DataCleaner.fill_missing_values at h ⊢
  dsimp only at h ⊢
  repeat' split at h
  all_goals simp_all

/-- An error result from `remove_outliers` leaves the state unchanged and
carries a zero count. -/
theorem remove_outliers_err (st : DataCleaner) (column method msg : String)
    (t : ℚ) (c : Nat)
    (h : (st.remove_outliers column method t).2 = .err msg c) :
    (st.remove_outliers column method t).1 = st ∧ c = 0 := by
  unfold DataCleaner.remove_outliers at h ⊢
  dsimp only at h ⊢
  repeat' split at h
  all_goals simp_all

/-- An error result from `standardize_format` leaves the state unchanged
and carries a zero count. -/
theorem standardize_format_err (st : DataCleaner)
    (column target_format msg : String) (c : Nat)
    (h : (st.standardize_format column target_format).2 = .err msg c) :
    (st.standardize_format column target_format).1 = st ∧ c = 0 := by
  unfold DataCleaner.standardize_format at h ⊢
  dsimp only at h ⊢
  repeat' split at h
  all_goals simp_all

/-- C3: every cleaning operation catches its internal failures.  Whenever a
dispatched operation returns an error-shaped result, the count recorded in
that result is zero and the cleaner state — working table and change log —
is exactly the state before the call, so the remaining operations of a
batch run as if the failed one had not been attempted.  The embedded
operations are total functions, so no failure escapes an operation's
boundary. -/
theorem C3_operation_failure_containment (st : DataCleaner) (op : CleanOp)
    (msg : String) (c : Nat) (h : (applyOp st op).2 = OpResult.err msg c) :
    (applyOp st op).1 = st ∧ c = 0 := by
  cases op with
  | removeDuplicates keep => exact remove_duplicates_err st keep msg c h
  | fillMissing column strategy =>
    exact fill_missing_values_err st column strategy msg c h
  | removeOutliers column method threshold =>
    exact remove_outliers_err st column method msg threshold c h
  | standardizeFormat column target_format =>
    exact standardize_format_err st column target_format msg c h

/-- C3 witness: filling a nonexistent column errors out and leaves the
state untouched. -/
theorem C3_witness :
    (applyOp (DataCleaner.init dfDupes)
        (CleanOp.fillMissing "nope" "auto")).1 =
      DataCleaner.init dfDupes ∧ (0 : Nat) = 0 :=
  C3_operation_failure_containment (DataCleaner.init dfDupes)
    (CleanOp.fillMissing "nope" "auto") "Column nope not found" 0
    (by with_unfolding_all decide)

/-- Filtering rows through a boolean mask never lengthens the list. -/
theorem filterOutMask_length_le (rows : List Row) (mask : List Bool) :
    (filterOutMask rows mask).length ≤ rows.length :=
  le_trans (List.length_filterMap_le _ _)
    (by rw [List.length_zip]; exact min_le_left _ _)

/-- Rewriting one column keeps the column list. -/
theorem mapColCells_cols (df : DataFrame) (i : Nat) (f : Cell → Cell) :
    (mapColCells df i f).cols = df.cols := rfl

/-- Rewriting one column keeps the row count. -/
theorem mapColCells_rows_length (df : DataFrame) (i : Nat) (f : Cell → Cell) :
    (mapColCells df i f).rows.length = df.rows.length := by
  simp [mapColCells]

/-- Filling keeps the column list. -/
theorem fillCol_cols (df : DataFrame) (i : Nat) (fv : Option Cell) :
    (fillCol df i fv).cols = df.cols := by
  cases fv <;> rfl

/-- Filling keeps the row count. -/
theorem fillCol_rows_length (df : DataFrame) (i : Nat) (fv : Option Cell) :
    (fillCol df i fv).rows.length = df.rows.length := by
  cases fv <;> simp [fillCol, mapColCells]

/-- Row filtering keeps the column list. -/
theorem filterRowsOn_cols (df : DataFrame) (i : Nat) (p : Cell → Bool) :
    (filterRowsOn df i p).cols = df.cols := rfl

/-- Row filtering never lengthens the table. -/
theorem filterRowsOn_rows_length_le (df : DataFrame) (i : Nat)
    (p : Cell → Bool) :
    (filterRowsOn df i p).rows.length ≤ df.rows.length :=
  List.length_filter_le _ _

/-- Shape facts for `remove_duplicates`: columns preserved, rows never
added, pristine copy untouched. -/
theorem remove_duplicates_shape (st : DataCleaner) (keep : String) :
    (st.remove_duplicates keep).1.cleaned_df.cols = st.cleaned_df.cols ∧
    (st.remove_duplicates keep).1.cleaned_df.rows.length ≤
      st.cleaned_df.rows.length ∧
    (st.remove_duplicates keep).1.original_df = st.original_df := by
  unfold DataCleaner.remove_duplicates
  dsimp only
  repeat' split
  all_goals simp_all [filterOutMask_length_le]

/-- Shape facts for `fill_missing_values`. -/
theorem fill_missing_values_shape (st : DataCleaner)
    (column strategy : String) :
    (st.fill_missing_values column strategy).1.cleaned_df.cols =
      st.cleaned_df.cols ∧
    (st.fill_missing_values column strategy).1.cleaned_df.rows.length ≤
      st.cleaned_df.rows.length ∧
    (st.fill_missing_values column strategy).1.original_df =
      st.original_df := by
  unfold DataCleaner.fill_missing_values
  dsimp only
  repeat' split
  all_goals
    simp_all [fillCol_cols, fillCol_rows_length, filterRowsOn_cols,
      filterRowsOn_rows_length_le]

/-- Shape facts for `remove_outliers`. -/
theorem remove_outliers_shape (st : DataCleaner) (column method : String)
    (t : ℚ) :
    (st.remove_outliers column method t).1.cleaned_df.cols =
      st.cleaned_df.cols ∧
    (st.remove_outliers column method t).1.cleaned_df.rows.length ≤
      st.cleaned_df.rows.length ∧
    (st.remove_outliers column method t).1.original_df = st.original_df := by
  unfold DataCleaner.remove_outliers
  dsimp only
  repeat' split
  all_goals simp_all [filterRowsOn_cols, filterRowsOn_rows_length_le]

/-- Shape facts for `standardize_format`. -/
theorem standardize_format_shape (st : DataCleaner)
    (column target_format : String) :
    (st.standardize_format column target_format).1.cleaned_df.cols =
      st.cleaned_df.cols ∧
    (st.standardize_format column target_format).1.cleaned_df.rows.length ≤
      st.cleaned_df.rows.length ∧
    (st.standardize_format column target_format).1.original_df =
      st.original_df := by
  unfold DataCleaner.standardize_format
  dsimp only
  repeat' split
  all_goals simp_all [mapColCells_cols, mapColCells_rows_length]

/-- Shape facts for a dispatched operation. -/
theorem applyOp_shape (st : DataCleaner) (op : CleanOp) :
    (applyOp st op).1.cleaned_df.cols = st.cleaned_df.cols ∧
    (applyOp st op).1.cleaned_df.rows.length ≤
      st.cleaned_df.rows.length ∧
    (applyOp st op).1.original_df = st.original_df := by
  cases op with
  | removeDuplicates keep => exact remove_duplicates_shape st keep
  | fillMissing column strategy =>
    exact fill_missing_values_shape st column strategy
  | removeOutliers column method threshold =>
    exact remove_outliers_shape st column method threshold
  | standardizeFormat column target_format =>
    exact standardize_format_shape st column target_format

/-- Shape facts for a whole batch of operations. -/
theorem applyOps_shape (ops : List CleanOp) (st : DataCleaner) :
    (applyOps st ops).cleaned_df.cols = st.cleaned_df.cols ∧
    (applyOps st ops).cleaned_df.rows.length ≤
      st.cleaned_df.rows.length ∧
    (applyOps st ops).original_df = st.original_df := by
  induction ops generalizing st with
  | nil => exact ⟨rfl, le_refl _, rfl⟩
  | cons op rest ih =>
    have h1 := applyOp_shape st op
    have h2 := ih ((applyOp st op).1)
    have hstep : applyOps st (op :: rest) = applyOps ((applyOp st op).1) rest :=
      rfl
    rw [hstep]
    exact ⟨h2.1.trans h1.1, le_trans h2.2.1 h1.2.1, h2.2.2.trans h1.2.2⟩

/-- C10: every cleaning operation preserves the working table's column
count (indeed the whole column list) and never increases its row count;
consequently, after any batch of operations starting from a fresh cleaner,
`get_summary` reports `rows_removed ≥ 0` and a cleaned shape with the same
column count as the original shape. -/
theorem C10_shape_invariants :
    (∀ (st : DataCleaner) (op : CleanOp),
      (applyOp st op).1.cleaned_df.cols.length =
        st.cleaned_df.cols.length ∧
      (applyOp st op).1.cleaned_df.rows.length ≤
        st.cleaned_df.rows.length) ∧
    (∀ (df : DataFrame) (ops : List CleanOp),
      0 ≤ ((applyOps (DataCleaner.init df) ops).get_summary).rows_removed ∧
      ((applyOps (DataCleaner.init df) ops).get_summary).cleaned_shape.2 =
        ((applyOps (DataCleaner.init df) ops).get_summary).original_shape.2) := by
  constructor
  · intro st op
    exact ⟨by rw [(applyOp_shape st op).1], (applyOp_shape st op).2.1⟩
  · intro df ops
    have h := applyOps_shape ops (DataCleaner.init df)
    have hc : (applyOps (DataCleaner.init df) ops).cleaned_df.cols =
        df.cols := h.1
    have hr : (applyOps (DataCleaner.init df) ops).cleaned_df.rows.length ≤
        df.rows.length := h.2.1
    have ho : (applyOps (DataCleaner.init df) ops).original_df = df :=
      h.2.2
    constructor
    · simp only [DataCleaner.get_summary, ho]
      omega
    · simp only [DataCleaner.get_summary, ho, hc]

/-- The `keep='first'` duplicate mask is all-false exactly when the rows
are pairwise distinct and disjoint from the already-seen rows. -/
theorem dupFirstMask_count_zero_iff (rows seen : List Row) :
    (dupFirstMask seen rows).count true = 0 ↔
      rows.Nodup ∧ ∀ r ∈ rows, r ∉ seen := by
  induction rows generalizing seen with
  | nil => simp [dupFirstMask]
  | cons r rs ih =>
    rw [dupFirstMask, List.count_cons]
    by_cases hr : r ∈ seen
    · constructor
      · intro h
        rw [if_pos (by simp [hr])] at h
        exact absurd h (by omega)
      · rintro ⟨-, hall⟩
        exact ((hall r (List.mem_cons_self r rs)) hr).elim
    · rw [if_neg (by simp [hr]), Nat.add_zero, ih (r :: seen),
        List.nodup_cons]
      constructor
      · rintro ⟨hnd, hall⟩
        refine ⟨⟨fun ha => (hall r ha) (List.mem_cons_self r seen), hnd⟩, ?_⟩
        intro x hx
        rcases List.mem_cons.mp hx with he | ht
        · exact fun hxs => hr (he ▸ hxs)
        · exact fun hxs => (hall x ht) (List.mem_cons_of_mem r hxs)
      · rintro ⟨⟨hrn, hnd⟩, hall⟩
        refine ⟨hnd, ?_⟩
        intro x hx hmem
        rcases List.mem_cons.mp hmem with he | hs
        · exact hrn (he ▸ hx)
        · exact (hall x (List.mem_cons_of_mem r hx)) hs

/-- The `keep='last'` duplicate mask of a duplicate-free list is
all-false. -/
theorem dupLastMask_count_zero (rows : List Row) (h : rows.Nodup) :
    (dupLastMask rows).count true = 0 := by
  induction rows with
  | nil => rfl
  | cons r rs ih =>
    rw [List.nodup_cons] at h
    simp [dupLastMask, List.count_cons, h.1, ih h.2]

/-- Dropping the rows marked by the `keep='first'` mask leaves a
duplicate-free list avoiding the seen rows. -/
theorem filterOutMask_dupFirst (rows seen : List Row) :
    (filterOutMask rows (dupFirstMask seen rows)).Nodup ∧
    ∀ r ∈ filterOutMask rows (dupFirstMask seen rows), r ∉ seen := by
  induction rows generalizing seen with
  | nil => simp [dupFirstMask, filterOutMask]
  | cons r rs ih =>
    have ih' := ih (r :: seen)
    by_cases hr : r ∈ seen
    · have hred : filterOutMask (r :: rs) (dupFirstMask seen (r :: rs)) =
          filterOutMask rs (dupFirstMask (r :: seen) rs) := by
        simp [dupFirstMask, filterOutMask, hr]
      rw [hred]
      exact ⟨ih'.1, fun x hx hxs =>
        ih'.2 x hx (List.mem_cons_of_mem r hxs)⟩
    · have hred : filterOutMask (r :: rs) (dupFirstMask seen (r :: rs)) =
          r :: filterOutMask rs (dupFirstMask (r :: seen) rs) := by
        simp [dupFirstMask, filterOutMask, hr]
      rw [hred]
      constructor
      · rw [List.nodup_cons]
        exact ⟨fun hmem => ih'.2 r hmem (List.mem_cons_self r seen), ih'.1⟩
      · intro x hx
        rcases List.mem_cons.mp hx with he | ht
        · exact fun hxs => hr (he ▸ hxs)
        · exact fun hxs => ih'.2 x ht (List.mem_cons_of_mem r hxs)

/-- On a duplicate-free table, `remove_duplicates` is a no-op returning the
zero-change result dict. -/
theorem remove_duplicates_nodup_noop (st : DataCleaner) (keep : String)
    (hk : keep = "first" ∨ keep = "last") (h : st.cleaned_df.rows.Nodup) :
    st.remove_duplicates keep =
      (st, .ok (.dup 0 st.cleaned_df.rows.length
        st.cleaned_df.rows.length)) := by
  unfold DataCleaner.remove_duplicates
  rw [if_pos hk]
  dsimp only
  have hmask : (if keep = "first" then dupFirstMask [] st.cleaned_df.rows
      else dupLastMask st.cleaned_df.rows).count true = 0 := by
    split
    · exact (dupFirstMask_count_zero_iff _ _).mpr ⟨h, by simp⟩
    · exact dupLastMask_count_zero _ h
  rw [if_pos hmask]

/-- After `remove_duplicates(keep='first')` the working table is
duplicate-free. -/
theorem remove_duplicates_first_nodup (st : DataCleaner) :
    ((st.remove_duplicates "first").1.cleaned_df.rows).Nodup := by
  unfold DataCleaner.remove_duplicates
  rw [if_pos (Or.inl rfl)]
  dsimp only
  rw [if_pos rfl]
  split
  · next hc => exact ((dupFirstMask_count_zero_iff _ _).mp hc).1
  · exact (filterOutMask_dupFirst _ _).1

/-- C4: `remove_duplicates(keep='first')` is idempotent — a second call on
the same cleaner reports `rows_removed = 0` in an ok-shaped result and
leaves the state unchanged; and in general `remove_duplicates` on a table
with no exact-duplicate rows (for either valid `keep`) returns the
zero-change result without error and without touching the state. -/
theorem C4_remove_duplicates_idempotent :
    (∀ st : DataCleaner,
      ((st.remove_duplicates "first").1.remove_duplicates "first").2 =
        OpResult.ok (ChangeEntry.dup 0
          ((st.remove_duplicates "first").1.cleaned_df.rows.length)
          ((st.remove_duplicates "first").1.cleaned_df.rows.length)) ∧
      ((st.remove_duplicates "first").1.remove_duplicates "first").1 =
        (st.remove_duplicates "first").1) ∧
    (∀ (st : DataCleaner) (keep : String),
      keep = "first" ∨ keep = "last" → st.cleaned_df.rows.Nodup →
      (st.remove_duplicates keep).2 =
        OpResult.ok (ChangeEntry.dup 0 st.cleaned_df.rows.length
          st.cleaned_df.rows.length) ∧
      (st.remove_duplicates keep).1 = st) := by
  have base : ∀ (st : DataCleaner) (keep : String),
      keep = "first" ∨ keep = "last" → st.cleaned_df.rows.Nodup →
      (st.remove_duplicates keep).2 =
        OpResult.ok (ChangeEntry.dup 0 st.cleaned_df.rows.length
          st.cleaned_df.rows.length) ∧
      (st.remove_duplicates keep).1 = st := by
    intro st keep hk h
    rw [remove_duplicates_nodup_noop st keep hk h]
    exact ⟨rfl, rfl⟩
  exact ⟨fun st => base _ "first" (Or.inl rfl)
    (remove_duplicates_first_nodup st), base⟩

/-- C4 witness: on the duplicate-free `dfSalary` table,
`remove_duplicates(keep='first')` reports zero rows removed and leaves the
cleaner unchanged. -/
theorem C4_witness :
    ((DataCleaner.init dfSalary).remove_duplicates "first").2 =
      OpResult.ok (ChangeEntry.dup 0
        (DataCleaner.init dfSalary).cleaned_df.rows.length
        (DataCleaner.init dfSalary).cleaned_df.rows.length) ∧
    ((DataCleaner.init dfSalary).remove_duplicates "first").1 =
      DataCleaner.init dfSalary :=
  C4_remove_duplicates_idempotent.2 (DataCleaner.init dfSalary) "first"
    (Or.inl rfl) (by with_unfolding_all decide)

/-- The IQR keep-mask never keeps a missing cell. -/
theorem iqrKeep_not_missing (q1? q3? : Option ℚ) (t : ℚ) (c : Cell)
    (h : iqrKeep q1? q3? t c = true) : c.isMissing = false := by
  cases q1? <;> cases q3? <;> cases c <;> simp_all [iqrKeep, Cell.isMissing]

/-- The z-score keep-mask never keeps a missing cell. -/
theorem zscoreKeep_not_missing (xs : List ℚ) (t : ℚ) (c : Cell)
    (h : zscoreKeep xs t c = true) : c.isMissing = false := by
  by_cases hn : 2 ≤ xs.length
  · cases c <;> simp_all [zscoreKeep, hn, Cell.isMissing]
  · simp_all [zscoreKeep, hn]

/-- When a keep-mask never keeps a missing cell, the missing cells of the
filtered column are at most the number of removed rows. -/
theorem countMissing_le_removed (rows : List Row) (i : Nat) (p : Cell → Bool)
    (hp : ∀ c, p c = true → c.isMissing = false) :
    countMissing (rows.map (fun r => getCell r i)) ≤
      rows.length - (rows.filter (fun r => p (getCell r i))).length := by
  rw [countMissing, List.countP_map]
  have h1 : (rows.filter (fun r => p (getCell r i))).length =
      rows.countP (fun r => p (getCell r i)) :=
    (List.countP_eq_length_filter _ _).symm
  rw [h1]
  have h2 := List.length_eq_countP_add_countP (fun r => p (getCell r i)) rows
  have h3 : rows.countP
        ((fun c => c.isMissing) ∘ (fun r => getCell r i)) ≤
      rows.countP (fun r => decide ¬(p (getCell r i) = true)) := by
    apply List.countP_mono_left
    intro r _ hPm
    simp only [Function.comp] at hPm
    by_cases hp2 : p (getCell r i) = true
    · rw [hp _ hp2] at hPm
      exact absurd hPm (by simp)
    · simp [hp2]
  omega

/-- C5: on a present numeric column whose quantiles are `q1` and `q3`,
`remove_outliers(method='iqr', threshold=t)` keeps exactly the rows whose
value lies within `[q1 - t*(q3 - q1), q3 + t*(q3 - q1)]` and removes the
rest (a missing value does not lie within the bounds), reporting
`outliers_removed` as the number of removed rows. -/
theorem C5_iqr_outlier_bounds (st : DataCleaner) (column : String)
    (t q1 q3 : ℚ) (i : Nat)
    (hidx : colIdx? st.cleaned_df column = some i)
    (hnum : dtypeAt st.cleaned_df i = ColType.numeric)
    (hq1 : quantile (numsOf (colCells st.cleaned_df i)) (1/4) = some q1)
    (hq3 : quantile (numsOf (colCells st.cleaned_df i)) (3/4) = some q3) :
    (st.remove_outliers column "iqr" t).1.cleaned_df.rows =
      st.cleaned_df.rows.filter (fun r =>
        match getCell r i with
        | .num v => decide (q1 - t * (q3 - q1) ≤ v) &&
            decide (v ≤ q3 + t * (q3 - q1))
        | _ => false) ∧
    (st.remove_outliers column "iqr" t).2 =
      OpResult.ok (ChangeEntry.outlier column "iqr"
        (st.cleaned_df.rows.length -
          (st.cleaned_df.rows.filter (fun r =>
            match getCell r i with
            | .num v => decide (q1 - t * (q3 - q1) ≤ v) &&
                decide (v ≤ q3 + t * (q3 - q1))
            | _ => false)).length)
        st.cleaned_df.rows.length
        (st.cleaned_df.rows.filter (fun r =>
          match getCell r i with
          | .num v => decide (q1 - t * (q3 - q1) ≤ v) &&
              decide (v ≤ q3 + t * (q3 - q1))
          | _ => false)).length) := by
  unfold DataCleaner.remove_outliers
  rw [hidx]
  dsimp only
  rw [if_pos hnum, if_pos rfl, hq1, hq3]
  constructor
  · simp [filterRowsOn, iqrKeep]
  · simp [filterRowsOn, iqrKeep]

/-- C5 witness: on the column `[10, 12, 11, 13, 1000]` with threshold 1.5
the quantiles are 11 and 13, the bounds `[8, 16]`, the value 1000 is
removed and `outliers_removed = 1`. -/
theorem C5_witness :
    ((DataCleaner.init dfAges).remove_outliers "age" "iqr"
        (3/2)).1.cleaned_df.rows =
      (DataCleaner.init dfAges).cleaned_df.rows.filter (fun r =>
        match getCell r 0 with
        | .num v => decide ((11 : ℚ) - (3/2) * (13 - 11) ≤ v) &&
            decide (v ≤ (13 : ℚ) + (3/2) * (13 - 11))
        | _ => false) ∧
    ((DataCleaner.init dfAges).remove_outliers "age" "iqr" (3/2)).2 =
      OpResult.ok (ChangeEntry.outlier "age" "iqr" 1 5 4) :=
  ⟨(C5_iqr_outlier_bounds (DataCleaner.init dfAges) "age" (3/2) 11 13 0
      (by with_unfolding_all decide) (by with_unfolding_all decide)
      (by with_unfolding_all decide) (by with_unfolding_all decide)).1,
    by with_unfolding_all decide⟩

/-- C6: `fill_missing_values` fails with an explicit error result and no
state mutation both when the named column is absent and when the numeric
strategy `mean` or `median` is requested on a non-numeric column that has
missing values; the column is never coerced. -/
theorem C6_fill_error_cases (st : DataCleaner) (column strategy : String)
    (h : colIdx? st.cleaned_df column = none ∨
      (∃ i, colIdx? st.cleaned_df column = some i ∧
        dtypeAt st.cleaned_df i ≠ ColType.numeric ∧
        countMissing (colCells st.cleaned_df i) ≠ 0 ∧
        (strategy = "mean" ∨ strategy = "median"))) :
    ((st.fill_missing_values column strategy).2).isErr = true ∧
    (st.fill_missing_values column strategy).1 = st := by
  rcases h with hnone | ⟨i, hidx, hdt, hmc, hs⟩
  · unfold DataCleaner.fill_missing_values
    rw [hnone]
    exact ⟨rfl, rfl⟩
  · unfold DataCleaner.fill_missing_values
    rw [hidx]
    dsimp only
    rw [if_neg hmc]
    rcases hs with hs | hs <;> subst hs <;> simp [hdt, OpResult.isErr]

/-- C6 witness: `mean` on the text column `name` of `dfNames` (which has a
missing value) leaves the cleaner untouched. -/
theorem C6_witness :
    ((DataCleaner.init dfNames).fill_missing_values "name" "mean").1 =
      DataCleaner.init dfNames :=
  (C6_fill_error_cases (DataCleaner.init dfNames) "name" "mean"
    (Or.inr ⟨0, by with_unfolding_all decide, by with_unfolding_all decide,
      by with_unfolding_all decide, Or.inl rfl⟩)).2

/-- C9: on a present numeric column, `remove_outliers` with method `iqr` or
`zscore` removes every row whose value in the target column is missing
(the keep-mask comparison is false for a missing value): the surviving
rows all have a value present, the reported `outliers_removed` is the
number of removed rows, and it is at least the number of missing cells of
the column. -/
theorem C9_outliers_drop_missing (st : DataCleaner) (column method : String)
    (t : ℚ) (i : Nat)
    (hidx : colIdx? st.cleaned_df column = some i)
    (hnum : dtypeAt st.cleaned_df i = ColType.numeric)
    (hm : method = "iqr" ∨ method = "zscore") :
    (∀ r ∈ (st.remove_outliers column method t).1.cleaned_df.rows,
      (getCell r i).isMissing = false) ∧
    (st.remove_outliers column method t).2 =
      OpResult.ok (ChangeEntry.outlier column method
        (st.cleaned_df.rows.length -
          (st.remove_outliers column method t).1.cleaned_df.rows.length)
        st.cleaned_df.rows.length
        (st.remove_outliers column method t).1.cleaned_df.rows.length) ∧
    countMissing (colCells st.cleaned_df i) ≤
      st.cleaned_df.rows.length -
        (st.remove_outliers column method t).1.cleaned_df.rows.length := by
  rcases hm with hm | hm <;> subst hm
  · unfold DataCleaner.remove_outliers
    rw [hidx]
    dsimp only
    rw [if_pos hnum, if_pos rfl]
    refine ⟨?_, rfl, ?_⟩
    · intro r hr
      have := (List.mem_filter.mp hr).2
      exact iqrKeep_not_missing _ _ _ _ this
    · exact countMissing_le_removed st.cleaned_df.rows i _
        (iqrKeep_not_missing _ _ _)
  · unfold DataCleaner.remove_outliers
    rw [hidx]
    dsimp only
    rw [if_pos hnum, if_neg (by decide), if_pos rfl]
    refine ⟨?_, rfl, ?_⟩
    · intro r hr
      have := (List.mem_filter.mp hr).2
      exact zscoreKeep_not_missing _ _ _ this
    · exact countMissing_le_removed st.cleaned_df.rows i _
        (zscoreKeep_not_missing _ _)

/-- C9 witness: on `dfSalary` (one missing cell) the IQR pass removes at
least that one row. -/
theorem C9_witness :
    countMissing (colCells (DataCleaner.init dfSalary).cleaned_df 0) ≤
      (DataCleaner.init dfSalary).cleaned_df.rows.length -
        ((DataCleaner.init dfSalary).remove_outliers "salary" "iqr"
          (3/2)).1.cleaned_df.rows.length :=
  (C9_outliers_drop_missing (DataCleaner.init dfSalary) "salary" "iqr"
    (3/2) 0 (by with_unfolding_all decide) (by with_unfolding_all decide)
    (Or.inl rfl)).2.2

/-- No per-column recommendation is a duplicate removal. -/
theorem columnRecs_not_dup (x : String × ColumnEntry) (r : Recommendation)
    (hr : r ∈ columnRecs x) : r.operation ≠ "remove_duplicates" := by
  obtain ⟨col, entry⟩ := x
  cases entry with
  | err m => simp [columnRecs] at hr
  | ok stats =>
    unfold columnRecs at hr
    rcases List.mem_append.mp hr with h | h
    · rcases List.mem_append.mp h with h2 | h2 <;> split at h2 <;>
        first
          | (rw [List.mem_singleton] at h2; subst h2; simp)
          | simp at h2
    · split at h <;>
        first
          | (rw [List.mem_singleton] at h; subst h; simp)
          | simp at h

/-- The priority comparison is transitive. -/
theorem recLE_trans : ∀ (a b c : Recommendation),
    recLE a b = true → recLE b c = true → recLE a c = true := by
  intro a b c h1 h2
  simp only [recLE, decide_eq_true_eq] at h1 h2 ⊢
  omega

/-- The priority comparison is total. -/
theorem recLE_total : ∀ (a b : Recommendation),
    (recLE a b || recLE b a) = true := by
  intro a b
  rcases Nat.le_total (priorityRank a.priority) (priorityRank b.priority)
    with h | h <;> simp [recLE, h]

/-- The duplicate scan produces the single fixed recommendation exactly
when some problem entry is a `has_duplicates` signal above 0.7. -/
theorem dupScanRecs_eq (l : List ProblemInfo) :
    (¬ (∃ p ∈ l, p.problem_type = "has_duplicates" ∧
        p.probability > 7/10) → dupScanRecs l = []) ∧
    ((∃ p ∈ l, p.problem_type = "has_duplicates" ∧ p.probability > 7/10) →
      dupScanRecs l = [dupRecommendation]) := by
  induction l with
  | nil => simp [dupScanRecs]
  | cons p ps ih =>
    by_cases hp : p.problem_type = "has_duplicates" ∧ p.probability > 7/10
    · constructor
      · intro hno
        exact (hno ⟨p, List.mem_cons_self p ps, hp⟩).elim
      · intro _
        rw [dupScanRecs, if_pos hp]
    · constructor
      · intro hno
        rw [dupScanRecs, if_neg hp]
        apply ih.1
        rintro ⟨q, hq, hqc⟩
        exact hno ⟨q, List.mem_cons_of_mem p hq, hqc⟩
      · rintro ⟨q, hq, hqc⟩
        rw [dupScanRecs, if_neg hp]
        apply ih.2
        rcases List.mem_cons.mp hq with he | ht
        · exact absurd (he ▸ hqc) hp
        · exact ⟨q, ht, hqc⟩

/-- C2: for every analysis report the recommender emits at most one
`remove_duplicates` recommendation; it emits exactly one — with priority
`high` and parameter `keep='first'` — precisely when some (equivalently,
the first) entry of `problems_detected` has problem type `has_duplicates`
with probability above 0.7, and none otherwise. -/
theorem C2_remove_duplicates_once (a : Analysis) :
    ((recommend_cleaning_operations a).countP
        (fun r => r.operation == "remove_duplicates")) ≤ 1 ∧
    ((∃ p ∈ a.problems_detected,
        p.problem_type = "has_duplicates" ∧ p.probability > 7/10) →
      ((recommend_cleaning_operations a).countP
          (fun r => r.operation == "remove_duplicates")) = 1 ∧
      ∀ r ∈ recommend_cleaning_operations a,
        r.operation = "remove_duplicates" →
          r.priority = "high" ∧
          r.params = [("keep", ParamVal.s "first")]) ∧
    ((¬ ∃ p ∈ a.problems_detected,
        p.problem_type = "has_duplicates" ∧ p.probability > 7/10) →
      ((recommend_cleaning_operations a).countP
          (fun r => r.operation == "remove_duplicates")) = 0) := by
  have hperm := List.mergeSort_perm (recsUnsorted a) recLE
  have hcount : (recommend_cleaning_operations a).countP
      (fun r => r.operation == "remove_duplicates") =
      (recsUnsorted a).countP
        (fun r => r.operation == "remove_duplicates") :=
    hperm.countP_eq _
  have hcol : (a.columns.flatMap columnRecs).countP
      (fun r => r.operation == "remove_duplicates") = 0 := by
    rw [List.countP_eq_zero]
    intro r hr
    rcases List.mem_flatMap.mp hr with ⟨x, hx, hrx⟩
    simp only [beq_iff_eq]
    exact columnRecs_not_dup x r hrx
  have hsplit : (recsUnsorted a).countP
      (fun r => r.operation == "remove_duplicates") =
      (dupScanRecs a.problems_detected).countP
        (fun r => r.operation == "remove_duplicates") := by
    rw [recsUnsorted, List.countP_append, hcol, Nat.add_zero]
  refine ⟨?_, ?_, ?_⟩
  · rw [hcount, hsplit]
    by_cases hex : ∃ p ∈ a.problems_detected,
        p.problem_type = "has_duplicates" ∧ p.probability > 7/10
    · rw [(dupScanRecs_eq _).2 hex]
      decide
    · rw [(dupScanRecs_eq _).1 hex]
      decide
  · intro hex
    constructor
    · rw [hcount, hsplit, (dupScanRecs_eq _).2 hex]
      decide
    · intro r hr hop
      have hr' : r ∈ recsUnsorted a := hperm.mem_iff.mp hr
      rw [recsUnsorted] at hr'
      rcases List.mem_append.mp hr' with h | h
      · rw [(dupScanRecs_eq _).2 hex, List.mem_singleton] at h
        subst h
        exact ⟨rfl, rfl⟩
      · rcases List.mem_flatMap.mp h with ⟨x, hx, hrx⟩
        exact absurd hop (columnRecs_not_dup x r hrx)
  · intro hnone
    rw [hcount, hsplit, (dupScanRecs_eq _).1 hnone]
    decide

/-- C2 witness: on the report `aDup`, whose only problem entry is a
`has_duplicates` signal at probability 0.8, exactly one duplicate-removal
recommendation is emitted. -/
theorem C2_witness :
    ((recommend_cleaning_operations aDup).countP
      (fun r => r.operation == "remove_duplicates")) = 1 :=
  ((C2_remove_duplicates_once aDup).2.1
    ⟨⟨"a", "has_duplicates", 4/5⟩, by with_unfolding_all decide,
      rfl, by with_unfolding_all decide⟩).1

/-- C8: the final recommendation list is stably sorted by priority rank
(high before medium before low): it is pairwise nondecreasing in rank, and
for every priority value the subsequence with that priority equals, in
order, the corresponding subsequence of the pre-sort generation-order
list. -/
theorem C8_priority_sort (a : Analysis) :
    (recommend_cleaning_operations a).Pairwise
      (fun x y => priorityRank x.priority ≤ priorityRank y.priority) ∧
    ∀ pr : String,
      (recommend_cleaning_operations a).filter
          (fun r => r.priority == pr) =
        (recsUnsorted a).filter (fun r => r.priority == pr) := by
  constructor
  · exact (List.sorted_mergeSort recLE_trans recLE_total
      (recsUnsorted a)).imp
      (fun h => by simpa [recLE, decide_eq_true_eq] using h)
  · intro pr
    have hsub : ((recsUnsorted a).filter
        (fun r => r.priority == pr)).Sublist (recsUnsorted a) :=
      List.filter_sublist _
    have hpw : ((recsUnsorted a).filter
        (fun r => r.priority == pr)).Pairwise
        (fun x y => recLE x y = true) := by
      apply List.pairwise_of_forall_mem_list
      intro x hx y hy
      have hxp : x.priority = pr := by
        simpa using (List.mem_filter.mp hx).2
      have hyp : y.priority = pr := by
        simpa using (List.mem_filter.mp hy).2
      simp [recLE, hxp, hyp]
    have h2 : ((recsUnsorted a).filter
        (fun r => r.priority == pr)).Sublist
        ((recsUnsorted a).mergeSort recLE) :=
      List.sublist_mergeSort recLE_trans recLE_total hpw hsub
    have h3 : ((recsUnsorted a).filter
        (fun r => r.priority == pr)).filter (fun r => r.priority == pr) =
        (recsUnsorted a).filter (fun r => r.priority == pr) :=
      List.filter_eq_self.mpr (fun r hr => (List.mem_filter.mp hr).2)
    have h4 : ((recsUnsorted a).filter
        (fun r => r.priority == pr)).Sublist
        (((recsUnsorted a).mergeSort recLE).filter
          (fun r => r.priority == pr)) := by
      have h5 := h2.filter (fun r => r.priority == pr)
      rwa [h3] at h5
    have h6 : ((recsUnsorted a).filter (fun r => r.priority == pr)).length =
        (((recsUnsorted a).mergeSort recLE).filter
          (fun r => r.priority == pr)).length := by
      rw [← List.countP_eq_length_filter, ← List.countP_eq_length_filter]
      exact ((List.mergeSort_perm (recsUnsorted a) recLE).countP_eq _).symm
    exact (h4.eq_of_length h6).symm

/-- The report's columns dict maps every column name to the entry
`analyzeColumn` computes for that name (duplicate names collapse onto the
same entry, as with a Python dict). -/
theorem analyze_columns_lookup (env : MLModels)
    (cols : List (String × ColType)) (col : String)
    (hmem : col ∈ cols.map Prod.fst) :
    ((cols.map (fun c => (c.1, analyzeColumn env c.1))).map
      (fun p => (p.1, p.2.1))).lookup col =
      some (analyzeColumn env col).1 := by
  induction cols with
  | nil => simp at hmem
  | cons c cs ih =>
    by_cases hc : col = c.1
    · subst hc
      simp [List.lookup_cons]
    · have hb : (col == c.1) = false := beq_eq_false_iff_ne.mpr hc
      have ht : col ∈ cs.map Prod.fst := by
        rcases List.mem_cons.mp hmem with he | ht
        · exact absurd he hc
        · exact ht
      simpa [List.lookup_cons, hb] using ih ht

/-- Every problems_detected entry produced while scoring a column names
that column. -/
theorem scoreModels_column (col : String) (row : List ℚ)
    (models : List (String × (List ℚ → Except String (List ℚ)))) :
    ∀ p ∈ (scoreModels col row models).2, p.column = col := by
  induction models with
  | nil => simp [scoreModels]
  | cons m ms ih =>
    obtain ⟨pt, md⟩ := m
    intro p hp
    rw [scoreModels] at hp
    dsimp only at hp
    cases hmr : md row with
    | ok proba =>
      rw [hmr] at hp
      dsimp only at hp
      rcases List.mem_append.mp hp with h | h
      · by_cases hq :
          (if proba.length = 2 then proba.getD 1 0 else 0 : ℚ) > 1/2
        · rw [if_pos hq, List.mem_singleton] at h
          subst h
          rfl
        · rw [if_neg hq] at h
          simp at h
      · exact ih p h
    | error e =>
      rw [hmr] at hp
      dsimp only at hp
      exact ih p hp

/-- A problem type whose model fails to predict gets score
`probability 0, has_problem false` in the column's scores. -/
theorem scoreModels_lookup_err (col : String) (row : List ℚ)
    (models : List (String × (List ℚ → Except String (List ℚ))))
    (hnd : (models.map Prod.fst).Nodup) (ptype : String)
    (model : List ℚ → Except String (List ℚ))
    (hmem : (ptype, model) ∈ models) (e : String)
    (he : model row = .error e) :
    (scoreModels col row models).1.lookup ptype =
      some ⟨0, false⟩ := by
  induction models with
  | nil => simp at hmem
  | cons m ms ih =>
    obtain ⟨pt, md⟩ := m
    rw [List.map_cons, List.nodup_cons] at hnd
    rcases List.mem_cons.mp hmem with heq | ht
    · have h1 : pt = ptype := (Prod.mk.injEq _ _ _ _ ▸ heq).1.symm
      have h2 : md = model := (Prod.mk.injEq _ _ _ _ ▸ heq).2.symm
      subst h1
      subst h2
      rw [scoreModels]
      dsimp only
      rw [he]
      simp [List.lookup_cons]
    · have hpt : ptype ∈ ms.map Prod.fst :=
        List.mem_map.mpr ⟨(ptype, model), ht, rfl⟩
      have hne : (ptype == pt) = false :=
        beq_eq_false_iff_ne.mpr (fun h2 => hnd.1 (h2 ▸ hpt))
      rw [scoreModels]
      dsimp only
      cases hmr : md row with
      | ok proba =>
        simp only [List.lookup_cons, hne]
        exact ih hnd.2 ht
      | error e2 =>
        simp only [List.lookup_cons, hne]
        exact ih hnd.2 ht

/-- C7 (amended): per-column failure containment of the analyzer, as the
code implements it.  An extraction-phase failure for one column (extractor
error or metadata feature-column selection error) does not abort the
analysis: that column's report entry is the error shape, no
problems_detected entry names that column, and every column's entry is
exactly what its own independent analysis computes.  A prediction failure
is instead caught per problem type: the column's entry is not the error
shape, that problem type is scored `probability 0, has_problem false`, and
the remaining problem types of the column are scored normally (so the
column can still appear in problems_detected). -/
theorem C7_per_column_failures (env : MLModels) (df : DataFrame)
    (col : String) (hmem : col ∈ df.cols.map Prod.fst) :
    (∀ e, extractPhase env col = .error e →
      (analyze_dataframe env df).columns.lookup col =
        some (ColumnEntry.err e) ∧
      ∀ p ∈ (analyze_dataframe env df).problems_detected,
        p.column ≠ col) ∧
    (∀ c2, c2 ∈ df.cols.map Prod.fst →
      (analyze_dataframe env df).columns.lookup c2 =
        some (analyzeColumn env c2).1) ∧
    ((env.models.map Prod.fst).Nodup →
      ∀ features row, extractPhase env col = .ok (features, row) →
      ∀ ptype model, (ptype, model) ∈ env.models →
      ∀ e, model row = .error e →
        (analyzeColumn env col).1.isErr = false ∧
        (analyze_dataframe env df).columns.lookup col =
          some (analyzeColumn env col).1 ∧
        ∀ stats, (analyzeColumn env col).1 = ColumnEntry.ok stats →
          stats.problems.lookup ptype = some ⟨0, false⟩) := by
  have hlook : ∀ c2, c2 ∈ df.cols.map Prod.fst →
      (analyze_dataframe env df).columns.lookup c2 =
        some (analyzeColumn env c2).1 := by
    intro c2 hc2
    unfold analyze_dataframe
    dsimp only
    exact analyze_columns_lookup env df.cols c2 hc2
  refine ⟨?_, hlook, ?_⟩
  · intro e herr
    have hcolumn : analyzeColumn env col = (ColumnEntry.err e, []) := by
      unfold analyzeColumn
      rw [herr]
    constructor
    · rw [hlook col hmem, hcolumn]
    · intro p hp
      unfold analyze_dataframe at hp
      dsimp only at hp
      rcases List.mem_flatMap.mp hp with ⟨x, hx, hpx⟩
      rcases List.mem_map.mp hx with ⟨c, hc, hxc⟩
      rw [← hxc] at hpx
      dsimp only at hpx
      by_cases hcc : c.1 = col
      · rw [hcc, hcolumn] at hpx
        simp at hpx
      · have hpcol : p.column = c.1 := by
          unfold analyzeColumn at hpx
          cases hext : extractPhase env c.1 with
          | error e2 =>
            rw [hext] at hpx
            simp at hpx
          | ok fr =>
            obtain ⟨f2, r2⟩ := fr
            rw [hext] at hpx
            dsimp only at hpx
            exact scoreModels_column c.1 r2 env.models p hpx
        rw [hpcol]
        exact hcc
  · intro hnd features row hext ptype model hmmem e he
    have hcolumn : (analyzeColumn env col).1 = ColumnEntry.ok
        { problems := (scoreModels col row env.models).1,
          missing_percentage := featGet features "missing_percentage" 0,
          duplicate_percentage := featGet features "duplicate_percentage" 0,
          outlier_percentage := featGet features "outlier_percentage" 0,
          format_consistency_score :=
            featGet features "format_consistency_score" 100 } := by
      unfold analyzeColumn
      rw [hext]
    refine ⟨by rw [hcolumn]; rfl, hlook col hmem, ?_⟩
    intro stats hstats
    rw [hcolumn] at hstats
    have hs : stats =
        { problems := (scoreModels col row env.models).1,
          missing_percentage := featGet features "missing_percentage" 0,
          duplicate_percentage := featGet features "duplicate_percentage" 0,
          outlier_percentage := featGet features "outlier_percentage" 0,
          format_consistency_score :=
            featGet features "format_consistency_score" 100 } := by
      injection hstats with h1
      exact h1.symm
    rw [hs]
    exact scoreModels_lookup_err col row env.models hnd ptype model
      hmmem e he

/-- C7 (counterexample): under `envPredictFail` the `has_type_issue` model
raises on every prediction, yet the analyzed column's report entry is the
ok shape — not an error entry — and the column still appears in
problems_detected through its `has_missing` score, so a prediction failure
neither marks the column errored nor excludes it from problems_detected as
the claim states. -/
theorem C7_counterexample :
    (analyze_dataframe envPredictFail dfOneCol).columns =
      [("a", ColumnEntry.ok statsPredictFail)] ∧
    (analyze_dataframe envPredictFail dfOneCol).problems_detected =
      [⟨"a", "has_missing", 9/10⟩] := by
  with_unfolding_all decide

/-- C7 witness: the extractor failure on column `bad` yields an errored
entry for that column while the rest of the analysis proceeds. -/
theorem C7_witness :
    (analyze_dataframe envExtractFail dfBadGood).columns.lookup "bad" =
      some (ColumnEntry.err "boom") :=
  ((C7_per_column_failures envExtractFail dfBadGood "bad"
    (by with_unfolding_all decide)).1 "boom"
    (by with_unfolding_all rfl)).1
